import Mathlib

/-!
Verification development for a thin Gemini CLI wrapper client
(`my_gemini/client.py`, `my_gemini/models.py`).

Shallow embedding conventions:
* Strings are Lean `String`; where the Python code uses string methods whose
  Lean counterparts do not reduce in the kernel (`startswith`, `split`,
  `strip`, substring containment), we define executable equivalents over
  `List Char` and wrap them for `String`.
* The filesystem is an explicit association list from paths to byte contents
  (bytes as `Nat`, always < 256 in practice).
* The randomness of `uuid.uuid4().hex` is modelled as an explicit supply
  `ids : Nat → List Char` of generated hex-digit strings together with a
  counter: call number `k` draws `ids k` (the 32 hex characters of the
  uuid), of which the code keeps the first 8.
* The external process spawned by `_call_gemini` is an oracle
  `world : List String → ProcSpec` mapping the argument vector to the
  process's completion time (none = never completes), exit code and captured
  output streams (already decoded to text).
* Python exceptions are values of `PyErr`; functions that can raise return
  `Except PyErr _` together with the state at raise time.
-/

namespace MyGemini

/-! ## Basic string helpers (executable stand-ins for Python str methods) -/

/-- Python whitespace stripped by `str.strip()` (ASCII portion). -/
def isWs (c : Char) : Bool :=
  c == ' ' || c == '\t' || c == '\n' || c == '\r' || c == '\x0b' || c == '\x0c'

/-- Strip from a character list: drop whitespace at both ends. -/
def stripChars (l : List Char) : List Char :=
  ((l.dropWhile isWs).reverse.dropWhile isWs).reverse

/-- Python `s.strip()` for decoded text. -/
def pyStrip (s : String) : String := String.mk (stripChars s.data)

/-- Executable list-level "is a prefix of" (Boolean). -/
def isPrefixB : List Char → List Char → Bool
  | [], _ => true
  | _ :: _, [] => false
  | a :: as, b :: bs => a == b && isPrefixB as bs

/-- Executable list-level "occurs as a contiguous sublist" (Boolean). -/
def isInfixB (sub : List Char) : List Char → Bool
  | [] => sub.isEmpty
  | b :: bs => isPrefixB sub (b :: bs) || isInfixB sub bs

/-- Python `pre in s` / `s.startswith(pre)` helpers on `String`. -/
def pyStartsWith (s pre : String) : Bool := isPrefixB pre.data s.data

/-- Python `sub in s` (substring containment) on `String`. -/
def containsSub (s sub : String) : Bool := isInfixB sub.data s.data

/-- Python `s.split(sep, 1)` when it yields two pieces: split at the first
occurrence of `sep`; `none` when `sep` does not occur (in which case the
Python tuple destructuring `header, data = url.split(",", 1)` raises). -/
def splitOnceAux (sep : Char) : List Char → Option (List Char × List Char)
  | [] => none
  | c :: cs =>
    if c == sep then some ([], cs)
    else (splitOnceAux sep cs).map fun p => (c :: p.1, p.2)

/-- String wrapper for `splitOnceAux`. -/
def splitOnce (sep : Char) (s : String) : Option (String × String) :=
  (splitOnceAux sep s.data).map fun p => (String.mk p.1, String.mk p.2)

/-! ## Base64 decoding (Python `base64.b64decode`)

Model of `binascii.a2b_base64` in its default non-strict
(`validate=False`) mode, checked against CPython behaviour: characters
outside the alphabet and outside the padding are skipped; data characters
are consumed in quads; a `=` after 1 data character of a quad raises
`binascii.Error`, after 2 it must be followed (junk skipped) by a second
`=` or `binascii.Error` is raised, after 3 it completes the quad; a
terminating (or position-0) `=` ends decoding and everything after it is
ignored; input ending with 1, 2 or 3 unpadded leftover data characters
raises `binascii.Error` (incorrect padding).  Hence `"AA"`, `"A"`, `"AA="`,
`"AA=A"` and `"AAA"` fail while `"AAAA"`, `"AA=="`, `"AAA="`, `"AAAA="`
and `"aGVsbG8="` decode.  The decoder then turns the consumed 6-bit values
into bytes, ignoring non-zero discarded trailing bits as Python does. -/

/-- Value of a base64 alphabet character, `none` for everything else. -/
def b64val (c : Char) : Option Nat :=
  if 'A' ≤ c ∧ c ≤ 'Z' then some (c.toNat - 65)
  else if 'a' ≤ c ∧ c ≤ 'z' then some (c.toNat - 97 + 26)
  else if '0' ≤ c ∧ c ≤ '9' then some (c.toNat - 48 + 52)
  else if c = '+' then some 62
  else if c = '/' then some 63
  else none

/-- Bit accumulator loop of the base64 decoder. -/
def b64decodeAux : List Nat → Nat → Nat → List Nat
  | [], _, _ => []
  | v :: vs, acc, nbits =>
    let acc2 := acc * 64 + v
    let nbits2 := nbits + 6
    if 8 ≤ nbits2 then
      (acc2 / 2 ^ (nbits2 - 8)) % 256 :: b64decodeAux vs (acc2 % 2 ^ (nbits2 - 8)) (nbits2 - 8)
    else
      b64decodeAux vs acc2 nbits2

/-- After a `=` closing a 2-character quad: skip junk until the required
second `=` (success, decoding ends) or a data character (padding error). -/
def b64secondPad : List Char → Option (List Nat)
  | [] => none
  | c :: rest =>
    if c == '=' then some []
    else if (b64val c).isSome then none
    else b64secondPad rest

/-- Collect the 6-bit values `a2b_base64` consumes, tracking the position
`q` inside the current quad; `none` models a raised `binascii.Error`. -/
def b64vals : List Char → Nat → Option (List Nat)
  | [], q => if q = 0 then some [] else none
  | c :: rest, q =>
    if c == '=' then
      match q with
      | 0 => some []
      | 1 => none
      | 2 => b64secondPad rest
      | _ => some []
    else
      match b64val c with
      | none => b64vals rest q
      | some v => (b64vals rest ((q + 1) % 4)).map fun l => v :: l

/-- Python `base64.b64decode`, bytes as `Nat`s; `none` models a raised
`binascii.Error`. -/
def b64decode (s : String) : Option (List Nat) :=
  (b64vals s.data 0).map fun vals => b64decodeAux vals 0 0

/-! ## Filesystem model -/

/-- A filesystem: association list from paths to byte contents. -/
abbrev FS := List (String × List Nat)

/-- Python `os.path.exists`. -/
def fsExists : FS → String → Bool
  | [], _ => false
  | e :: rest, p => e.1 == p || fsExists rest p

/-- Python `os.unlink` (removing every entry at that path). -/
def fsErase : FS → String → FS
  | [], _ => []
  | e :: rest, p => if e.1 == p then fsErase rest p else e :: fsErase rest p

/-- Python `open(p, "wb")` followed by a full write: create or truncate. -/
def fsWrite (fs : FS) (p : String) (bs : List Nat) : FS := (p, bs) :: fsErase fs p

/-! ## Data model (`my_gemini/models.py`) -/

/-- The `Literal["system", "user", "assistant"]` role of a `ChatMessage`. -/
inductive Role
  | system
  | user
  | assistant
deriving DecidableEq

/-- Rendering of a role into the prompt line. -/
def roleStr : Role → String
  | .system => "system"
  | .user => "user"
  | .assistant => "assistant"

/-- The `Literal["text", "image_url"]` tag of a `ChatContentPart`. -/
inductive PartType
  | text
  | image_url
deriving DecidableEq

/-- `ChatContentPart`: tag, optional text, optional `image_url` dict
(modelled as an association list of its string entries). -/
structure ChatContentPart where
  type : PartType
  text : Option String := none
  image_url : Option (List (String × String)) := none
deriving DecidableEq

/-- `content: Union[str, List[ChatContentPart]]`. -/
inductive Content
  | str (s : String)
  | parts (l : List ChatContentPart)
deriving DecidableEq

/-- `ChatMessage`: a role and polymorphic content. -/
structure ChatMessage where
  role : Role
  content : Content
deriving DecidableEq

/-! ## Errors -/

/-- Python exceptions the embedded code can raise. -/
inductive PyErr
  /-- `ValueError` from `header, data = url.split(",", 1)` with no comma. -/
  | valueError
  /-- `TypeError` from subscripting `None` (`seg.image_url["url"]`). -/
  | typeError
  /-- `KeyError` from a missing `"url"` key. -/
  | keyError
  /-- `binascii.Error` from `base64.b64decode` on incorrect padding. -/
  | binasciiError
  /-- `asyncio.TimeoutError` from `asyncio.wait_for`. -/
  | timeoutError
  /-- `RuntimeError(msg)` raised on non-zero exit. -/
  | runtimeError (msg : String)
deriving DecidableEq

/-- Decidable equality for `Except`, so results of the embedded functions
can be compared by `decide`. -/
instance exceptDecEq {ε α : Type} [DecidableEq ε] [DecidableEq α] :
    DecidableEq (Except ε α) := fun a b =>
  match a, b with
  | .error e1, .error e2 =>
    if h : e1 = e2 then isTrue (by subst h; rfl)
    else isFalse (fun hh => h (by cases hh; rfl))
  | .error _, .ok _ => isFalse (fun hh => Except.noConfusion hh)
  | .ok _, .error _ => isFalse (fun hh => Except.noConfusion hh)
  | .ok v1, .ok v2 =>
    if h : v1 = v2 then isTrue (by subst h; rfl)
    else isFalse (fun hh => h (by cases hh; rfl))

/-! ## The client (`my_gemini/client.py`) -/

/-- `GeminiClient.__init__(cmd="gemini", timeout=60)`; the float timeout is
modelled as a rational number of time units. -/
structure GeminiClient where
  cmd : String := "gemini"
  timeout : Rat := 60

/-- A uuid supply: call number `k` draws `ids k`, the 32 hex characters of
`uuid.uuid4().hex` for that call. -/
abbrev IdSupply := Nat → List Char

/-- `_save_b64(data_url)`: split the data URL at the first comma (raising
`ValueError` when there is none), pick `.png` when the header contains
`"png"` and `.jpg` otherwise, build the filename from the first 8 hex
characters of a fresh uuid inside `.gemini_tmp`, then run
`open(fname, "wb")` followed by `f.write(base64.b64decode(data))`.  The
`open` creates (or truncates) the file before the decode is evaluated, so
when `b64decode` raises `binascii.Error` the empty file is left behind and
the error propagates with one uuid already drawn.  The result carries the
uuid counter and filesystem in both outcomes; directory creation and
filesystem write failures are not modelled (writes always succeed). -/
def save_b64 (ids : IdSupply) (k : Nat) (fs : FS) (data_url : String) :
    Except PyErr String × Nat × FS :=
  match splitOnce ',' data_url with
  | none => (.error .valueError, k, fs)
  | some (header, data) =>
    let ext := if containsSub header "png" then ".png" else ".jpg"
    let fname := ".gemini_tmp/" ++ String.mk ((ids k).take 8) ++ ext
    let fs1 := fsWrite fs fname []
    match b64decode data with
    | none => (.error .binasciiError, k + 1, fs1)
    | some bs => (.ok fname, k + 1, fsWrite fs1 fname bs)

/-- The inner `for seg in m.content` loop of `_build_prompt`, threading the
accumulated line text `txt`, the temp-file list, the uuid counter and the
filesystem.  On an exception the state at raise time is returned alongside
the error. -/
def buildSegs (ids : IdSupply) :
    List ChatContentPart → String → List String → Nat → FS →
    Except PyErr (String × List String) × Nat × FS
  | [], txt, tmps, k, fs => (.ok (txt, tmps), k, fs)
  | seg :: rest, txt, tmps, k, fs =>
    match seg.type with
    | .text => buildSegs ids rest (txt ++ seg.text.getD "") tmps k fs
    | .image_url =>
      match seg.image_url with
      | none => (.error .typeError, k, fs)
      | some d =>
        match d.lookup "url" with
        | none => (.error .keyError, k, fs)
        | some url =>
          if pyStartsWith url "data:" then
            match save_b64 ids k fs url with
            | (.error e, k2, fs2) => (.error e, k2, fs2)
            | (.ok path, k2, fs2) =>
              buildSegs ids rest (txt ++ (" @" ++ path)) (tmps ++ [path]) k2 fs2
          else
            buildSegs ids rest (txt ++ (" <image>" ++ url ++ "</image>")) tmps k fs

/-- The outer `for m in messages` loop of `_build_prompt`, accumulating the
per-message lines. -/
def buildMsgs (ids : IdSupply) :
    List ChatMessage → List String → List String → Nat → FS →
    Except PyErr (List String × List String) × Nat × FS
  | [], parts, tmps, k, fs => (.ok (parts, tmps), k, fs)
  | m :: rest, parts, tmps, k, fs =>
    match m.content with
    | .str s => buildMsgs ids rest (parts ++ [roleStr m.role ++ ": " ++ s]) tmps k fs
    | .parts segs =>
      match buildSegs ids segs "" tmps k fs with
      | (.error e, k2, fs2) => (.error e, k2, fs2)
      | (.ok (txt, tmps2), k2, fs2) =>
        buildMsgs ids rest (parts ++ [roleStr m.role ++ ": " ++ txt]) tmps2 k2 fs2

/-- `_build_prompt(messages)`: the newline-joined prompt and the temp-file
list, threading the uuid counter and the filesystem. -/
def build_prompt (ids : IdSupply) (messages : List ChatMessage) (k : Nat) (fs : FS) :
    Except PyErr (String × List String) × Nat × FS :=
  match buildMsgs ids messages [] [] k fs with
  | (.error e, k2, fs2) => (.error e, k2, fs2)
  | (.ok (parts, tmps), k2, fs2) => (.ok (String.intercalate "\n" parts, tmps), k2, fs2)

/-! ## External process model and the runner -/

/-- The observable behaviour of one spawned external process: its completion
time (`none` = it never completes), exit code, and captured output streams
decoded as text. -/
structure ProcSpec where
  time : Option Rat
  returncode : Int
  stdout : String
  stderr : String

/-- The external world: what the process spawned with a given argument
vector does. -/
abbrev World := List String → ProcSpec

/-- `_call_gemini(prompt, model)`: spawn `[cmd, "-m", model, "-p", prompt]`,
await completion within `timeout` (`asyncio.wait_for` raising a timeout
error when the process takes longer, or never completes), then raise
`RuntimeError` with exit code and stripped stderr on non-zero exit, or
return the stripped stdout. -/
def call_gemini (world : World) (c : GeminiClient) (prompt model : String) :
    Except PyErr String :=
  let p := world [c.cmd, "-m", model, "-p", prompt]
  match p.time with
  | none => .error .timeoutError
  | some d =>
    if c.timeout < d then .error .timeoutError
    else if p.returncode ≠ 0 then
      .error (.runtimeError
        ("Gemini CLI failed (" ++ toString p.returncode ++ "): " ++ pyStrip p.stderr))
    else .ok (pyStrip p.stdout)

/-- The `finally` block of `generate`: for each temp file, delete it when it
still exists, skip it otherwise. -/
def cleanup (fs : FS) (tmps : List String) : FS :=
  tmps.foldl (fun acc f => if fsExists acc f then fsErase acc f else acc) fs

/-- `generate(messages, model)`: build the prompt, call the CLI, and clean
the temp files up in a `finally` block.  Note the `try` only wraps the call:
when `_build_prompt` itself raises, no cleanup runs and the filesystem is
left as it was at raise time. -/
def generate (world : World) (ids : IdSupply) (c : GeminiClient)
    (messages : List ChatMessage) (model : String) (k : Nat) (fs : FS) :
    Except PyErr String × Nat × FS :=
  match build_prompt ids messages k fs with
  | (.error e, k2, fs2) => (.error e, k2, fs2)
  | (.ok (prompt, tmps), k2, fs2) =>
    (call_gemini world c prompt model, k2, cleanup fs2 tmps)

/-! ## Helper lemmas -/

theorem isPrefixB_append (l t : List Char) : isPrefixB l (l ++ t) = true := by
  induction l with
  | nil => rfl
  | cons x xs ih => simp [isPrefixB, ih]

theorem isInfixB_append (a sub b : List Char) : isInfixB sub (a ++ sub ++ b) = true := by
  induction a with
  | nil =>
    cases sub with
    | nil =>
      cases b with
      | nil => rfl
      | cons y ys => simp [isInfixB, isPrefixB]
    | cons x xs =>
      have h := isPrefixB_append (x :: xs) b
      simp only [List.cons_append] at h
      simp [isInfixB, h]
  | cons x xs ih =>
    simp only [List.cons_append, isInfixB, Bool.or_eq_true]
    exact Or.inr ih

theorem containsSub_append (x y z : String) : containsSub (x ++ y ++ z) y = true := by
  simp only [containsSub, String.data_append]
  exact isInfixB_append x.data y.data z.data

theorem fsExists_fsErase_self (fs : FS) (p : String) :
    fsExists (fsErase fs p) p = false := by
  induction fs with
  | nil => rfl
  | cons e rest ih =>
    by_cases h : e.1 = p
    · simpa [fsErase, h] using ih
    · simpa [fsErase, fsExists, h] using ih

theorem fsExists_fsErase_of_not (fs : FS) (p q : String) (h : fsExists fs p = false) :
    fsExists (fsErase fs q) p = false := by
  induction fs with
  | nil => rfl
  | cons e rest ih =>
    simp only [fsExists, Bool.or_eq_false_iff] at h
    by_cases hq : e.1 = q
    · simpa [fsErase, hq] using ih h.2
    · simpa [fsErase, fsExists, hq, h.1] using ih h.2

theorem cleanup_preserves_absent (tmps : List String) (fs : FS) (p : String)
    (h : fsExists fs p = false) : fsExists (cleanup fs tmps) p = false := by
  induction tmps generalizing fs with
  | nil => exact h
  | cons f rest ih =>
    by_cases hf : fsExists fs f = true
    · simpa [cleanup, hf] using ih (fsErase fs f) (fsExists_fsErase_of_not fs p f h)
    · simp only [Bool.not_eq_true] at hf
      simpa [cleanup, hf] using ih fs h

theorem cleanup_removes (tmps : List String) (fs : FS) (p : String)
    (h : p ∈ tmps) : fsExists (cleanup fs tmps) p = false := by
  induction tmps generalizing fs with
  | nil => cases h
  | cons f rest ih =>
    rcases List.mem_cons.mp h with hp | hp
    · subst hp
      by_cases hf : fsExists fs p = true
      · simpa [cleanup, hf] using
          cleanup_preserves_absent rest (fsErase fs p) p (fsExists_fsErase_self fs p)
      · simp only [Bool.not_eq_true] at hf
        simpa [cleanup, hf] using cleanup_preserves_absent rest fs p hf
    · by_cases hf : fsExists fs f = true
      · simpa [cleanup, hf] using ih (fsErase fs f) hp
      · simp only [Bool.not_eq_true] at hf
        simpa [cleanup, hf] using ih fs hp

/-! ## Spec-side rendering functions (used to state the claims) -/

/-- Spec-side content of a plain-string message (claims about all-string
sequences); the `parts` branch is never reached under those claims'
hypotheses. -/
def plainContent : Content → String
  | .str s => s
  | .parts _ => ""

/-- Spec-side per-message line `"role: content"` for plain-string content. -/
def plainLine (m : ChatMessage) : String :=
  roleStr m.role ++ ": " ++ plainContent m.content

/-- In-order concatenation of a list of strings. -/
def strConcat : List String → String
  | [] => ""
  | a :: l => a ++ strConcat l

/-- Spec-side contribution of one content part to its message line: a text
part contributes its text (empty if absent), an image part with an external
URL contributes the image tag.  The empty-string branches are never reached
under the hypotheses of the claims that use this. -/
def specContribution (seg : ChatContentPart) : String :=
  match seg.type with
  | .text => seg.text.getD ""
  | .image_url =>
    match seg.image_url with
    | none => ""
    | some d =>
      match d.lookup "url" with
      | none => ""
      | some url => " <image>" ++ url ++ "</image>"

/-- A content part that creates no temp file and raises nothing: a text
part, or an image part whose dict has an external (non-`data:`) url. -/
def tameSeg (seg : ChatContentPart) : Prop :=
  seg.type = PartType.text ∨
  (seg.type = PartType.image_url ∧ ∃ d url, seg.image_url = some d ∧
    d.lookup "url" = some url ∧ pyStartsWith url "data:" = false)

/-- A content part that never reaches `_save_b64` (so the uuid supply is
never consulted for it): whenever it is an image part whose dict has a url,
that url is not a `data:` URI. -/
def noDataSeg (seg : ChatContentPart) : Prop :=
  seg.type = PartType.image_url → ∀ d, seg.image_url = some d →
    ∀ url, d.lookup "url" = some url → pyStartsWith url "data:" = false

/-! ## Build lemmas -/

theorem buildMsgs_str (ids : IdSupply) (messages : List ChatMessage)
    (parts tmps : List String) (k : Nat) (fs : FS)
    (h : ∀ m ∈ messages, ∃ s, m.content = Content.str s) :
    buildMsgs ids messages parts tmps k fs =
      (.ok (parts ++ messages.map plainLine, tmps), k, fs) := by
  induction messages generalizing parts with
  | nil => simp [buildMsgs]
  | cons m rest ih =>
    obtain ⟨s, hs⟩ := h m (List.mem_cons_self m rest)
    have hrest : ∀ m2 ∈ rest, ∃ s2, m2.content = Content.str s2 :=
      fun m2 hm2 => h m2 (List.mem_cons_of_mem m hm2)
    simp only [buildMsgs, hs, List.map_cons, plainLine]
    rw [ih (parts ++ [roleStr m.role ++ ": " ++ s]) hrest]
    simp [hs, plainContent, List.append_assoc]

theorem buildSegs_tame (ids : IdSupply) (segs : List ChatContentPart)
    (txt : String) (tmps : List String) (k : Nat) (fs : FS)
    (h : ∀ seg ∈ segs, tameSeg seg) :
    buildSegs ids segs txt tmps k fs =
      (.ok (txt ++ strConcat (segs.map specContribution), tmps), k, fs) := by
  induction segs generalizing txt with
  | nil => simp [buildSegs, strConcat, String.append_empty]
  | cons seg rest ih =>
    have hrest : ∀ s ∈ rest, tameSeg s := fun s hs => h s (List.mem_cons_of_mem seg hs)
    rcases h seg (List.mem_cons_self seg rest) with htxt | ⟨himg, d, url, hd, hurl, hstart⟩
    · simp only [buildSegs, htxt]
      rw [ih (txt ++ seg.text.getD "") hrest]
      simp only [List.map_cons, specContribution, htxt, strConcat, String.append_assoc]
    · simp only [buildSegs, himg, hd, hurl, hstart, Bool.false_eq_true, if_false]
      rw [ih (txt ++ (" <image>" ++ url ++ "</image>")) hrest]
      simp only [List.map_cons, specContribution, himg, hd, hurl, strConcat,
        String.append_assoc]

theorem buildSegs_ids (ids1 ids2 : IdSupply) (segs : List ChatContentPart)
    (txt : String) (tmps : List String) (k : Nat) (fs : FS)
    (h : ∀ seg ∈ segs, noDataSeg seg) :
    buildSegs ids1 segs txt tmps k fs = buildSegs ids2 segs txt tmps k fs := by
  induction segs generalizing txt tmps k fs with
  | nil => rfl
  | cons seg rest ih =>
    have hrest : ∀ s ∈ rest, noDataSeg s := fun s hs => h s (List.mem_cons_of_mem seg hs)
    have hseg := h seg (List.mem_cons_self seg rest)
    cases htype : seg.type with
    | text =>
      simp only [buildSegs, htype]
      exact ih _ _ _ _ hrest
    | image_url =>
      cases himg : seg.image_url with
      | none => simp [buildSegs, htype, himg]
      | some d =>
        cases hurl : d.lookup "url" with
        | none => simp [buildSegs, htype, himg, hurl]
        | some url =>
          have hstart := hseg htype d himg url hurl
          simp only [buildSegs, htype, himg, hurl, hstart, Bool.false_eq_true, if_false]
          exact ih _ _ _ _ hrest

theorem buildMsgs_ids (ids1 ids2 : IdSupply) (messages : List ChatMessage)
    (parts tmps : List String) (k : Nat) (fs : FS)
    (h : ∀ m ∈ messages, ∀ segs, m.content = Content.parts segs →
      ∀ seg ∈ segs, noDataSeg seg) :
    buildMsgs ids1 messages parts tmps k fs = buildMsgs ids2 messages parts tmps k fs := by
  induction messages generalizing parts tmps k fs with
  | nil => rfl
  | cons m rest ih =>
    have hrest : ∀ m2 ∈ rest, ∀ segs, m2.content = Content.parts segs →
        ∀ seg ∈ segs, noDataSeg seg :=
      fun m2 hm2 => h m2 (List.mem_cons_of_mem m hm2)
    cases hc : m.content with
    | str s =>
      simp only [buildMsgs, hc]
      exact ih _ _ _ _ hrest
    | parts segs =>
      have hsegs := h m (List.mem_cons_self m rest) segs hc
      simp only [buildMsgs, hc]
      rw [buildSegs_ids ids1 ids2 segs "" tmps k fs hsegs]
      rcases hb : buildSegs ids2 segs "" tmps k fs with ⟨r, k2, fs2⟩
      cases r with
      | error e => rfl
      | ok p =>
        rcases p with ⟨txt, tmps2⟩
        exact ih _ _ _ _ hrest

/-! ## Concrete inputs used by witnesses and counterexamples -/

/-- A concrete uuid supply (hex digits of every drawn uuid). -/
def ids0 : IdSupply := fun _ => "0123456789abcdef0123456789abcdef".data

/-- A second concrete uuid supply, all `a`s. -/
def idsA : IdSupply := fun _ => "aaaaaaaaaaaaaaaaaaaaaaaaaaaaaaaa".data

/-- A third concrete uuid supply, all `b`s. -/
def idsB : IdSupply := fun _ => "bbbbbbbbbbbbbbbbbbbbbbbbbbbbbbbb".data

/-- An external world whose process always succeeds instantly with empty
output. -/
def worldNull : World := fun _ => ⟨some 1, 0, "", ""⟩

/-! ## Claims -/

/-- Claim C1: for every message sequence in which every message's content
is a plain string, `_build_prompt` returns as its prompt the messages'
`"role: content"` lines joined by single newlines in the original order,
and returns an empty list of temp files (the filesystem and the uuid
counter are untouched). -/
theorem claim_C1 (ids : IdSupply) (messages : List ChatMessage) (k : Nat) (fs : FS)
    (h : ∀ m ∈ messages, ∃ s, m.content = Content.str s) :
    build_prompt ids messages k fs =
      (.ok (String.intercalate "\n" (messages.map plainLine), []), k, fs) := by
  unfold build_prompt
  rw [buildMsgs_str ids messages [] [] k fs h]
  rfl

/-- Witness for C1 at a concrete two-message sequence. -/
theorem claim_C1_witness :
    (∀ m ∈ [ChatMessage.mk .user (.str "Hello"), ChatMessage.mk .assistant (.str "Hi")],
      ∃ s, m.content = Content.str s) ∧
    build_prompt ids0 [⟨.user, .str "Hello"⟩, ⟨.assistant, .str "Hi"⟩] 0 [] =
      (.ok ("user: Hello\nassistant: Hi", []), 0, []) := by
  have h : ∀ m ∈ [ChatMessage.mk .user (.str "Hello"), ChatMessage.mk .assistant (.str "Hi")],
      ∃ s, m.content = Content.str s := by
    intro m hm
    rcases List.mem_cons.mp hm with h1 | h2
    · exact ⟨"Hello", by rw [h1]⟩
    · rcases List.mem_cons.mp h2 with h3 | h4
      · exact ⟨"Hi", by rw [h3]⟩
      · cases h4
  refine ⟨h, ?_⟩
  rw [claim_C1 ids0 _ 0 [] h]
  decide

/-- Claim C10: a message whose content is an empty sequence of parts is
accepted without error, produces the line `"role: "` (role, colon, single
space, no text), and creates no temporary files; `generate` proceeds to the
external call on it. -/
theorem claim_C10 (world : World) (ids : IdSupply) (c : GeminiClient) (r : Role)
    (model : String) (k : Nat) (fs : FS) :
    build_prompt ids [⟨r, .parts []⟩] k fs = (.ok (roleStr r ++ ": ", []), k, fs) ∧
    generate world ids c [⟨r, .parts []⟩] model k fs =
      (call_gemini world c (roleStr r ++ ": ") model, k, fs) := by
  have hb : build_prompt ids [⟨r, Content.parts []⟩] k fs =
      (.ok (roleStr r ++ ": ", []), k, fs) := by
    have h1 : buildMsgs ids [⟨r, Content.parts []⟩] [] [] k fs =
        (.ok ([roleStr r ++ ": "], []), k, fs) := by
      simp [buildMsgs, buildSegs, String.append_empty]
    unfold build_prompt
    rw [h1]
    rfl
  refine ⟨hb, ?_⟩
  unfold generate
  rw [hb]
  rfl

/-- A message list embedding one base64 image, used to exhibit the
uuid-dependence of `_build_prompt`. -/
def msgsOneImage : List ChatMessage :=
  [⟨.user, .parts [⟨.image_url, none, some [("url", "data:image/png;base64,AAAA")]⟩]⟩]

/-- Counterexample to C9 as stated: two runs of `_build_prompt` on the very
same message sequence, differing only in the uuids `uuid.uuid4()` happened
to produce, return different prompts and different temp-file lists. -/
theorem claim_C9_cex :
    build_prompt idsA msgsOneImage 0 [] ≠ build_prompt idsB msgsOneImage 0 [] := by
  decide

/-- Claim C9 (amended): `_build_prompt` is deterministic in everything
except the generated uuids; in particular, on every message sequence
containing no `data:`-URI image part the result does not depend on the uuid
supply at all, so two runs coincide. -/
theorem claim_C9 (ids1 ids2 : IdSupply) (messages : List ChatMessage) (k : Nat) (fs : FS)
    (h : ∀ m ∈ messages, ∀ segs, m.content = Content.parts segs →
      ∀ seg ∈ segs, noDataSeg seg) :
    build_prompt ids1 messages k fs = build_prompt ids2 messages k fs := by
  unfold build_prompt
  rw [buildMsgs_ids ids1 ids2 messages [] [] k fs h]

/-- A message list with a plain string and an external-URL image, touching
no uuid. -/
def msgsNoData : List ChatMessage :=
  [⟨.user, .str "hi"⟩,
   ⟨.user, .parts [⟨.image_url, none, some [("url", "http://a/b.png")]⟩]⟩]

/-- Witness for C9 on a concrete sequence without `data:` URIs, with two
different uuid supplies. -/
theorem claim_C9_witness :
    (∀ m ∈ msgsNoData, ∀ segs, m.content = Content.parts segs →
      ∀ seg ∈ segs, noDataSeg seg) ∧
    build_prompt idsA msgsNoData 0 [] = build_prompt idsB msgsNoData 0 [] := by
  have h : ∀ m ∈ msgsNoData, ∀ segs, m.content = Content.parts segs →
      ∀ seg ∈ segs, noDataSeg seg := by
    intro m hm segs hsegs seg hseg
    rcases List.mem_cons.mp hm with h1 | h2
    · rw [h1] at hsegs
      cases hsegs
    · rcases List.mem_cons.mp h2 with h3 | h4
      · rw [h3] at hsegs
        cases hsegs
        rcases List.mem_cons.mp hseg with h5 | h6
        · intro _ d hd url hurl
          rw [h5] at hd
          cases hd
          cases hurl
          decide
        · cases h6
      · cases h4
  exact ⟨h, claim_C9 idsA idsB msgsNoData 0 [] h⟩

/-- Claim C6: for a message whose content is a sequence of parts each of
which is a text part or an external-URL image part, the built line is the
role, `": "`, then the in-order concatenation of the parts' contributions
(text parts contribute their text, defaulting to the empty string; image
parts contribute `" <image>url</image>"`), and no temp file is created. -/
theorem claim_C6 (ids : IdSupply) (r : Role) (segs : List ChatContentPart)
    (k : Nat) (fs : FS) (h : ∀ seg ∈ segs, tameSeg seg) :
    build_prompt ids [⟨r, .parts segs⟩] k fs =
      (.ok (roleStr r ++ ": " ++ strConcat (segs.map specContribution), []), k, fs) := by
  unfold build_prompt
  simp only [buildMsgs]
  rw [buildSegs_tame ids segs "" [] k fs h]
  rfl

/-- The concrete part list of the C6 witness: a text part followed by an
external-URL image part. -/
def segsTameW : List ChatContentPart :=
  [⟨.text, some "look", none⟩, ⟨.image_url, none, some [("url", "http://x/y.png")]⟩]

/-- Witness for C6: the text followed by the image tag. -/
theorem claim_C6_witness :
    (∀ seg ∈ segsTameW, tameSeg seg) ∧
    build_prompt ids0 [⟨.user, .parts segsTameW⟩] 0 [] =
      (.ok ("user: look <image>http://x/y.png</image>", []), 0, []) := by
  have h : ∀ seg ∈ segsTameW, tameSeg seg := by
    intro seg hseg
    rcases List.mem_cons.mp hseg with h1 | h2
    · left
      rw [h1]
    · rcases List.mem_cons.mp h2 with h3 | h4
      · right
        rw [h3]
        exact ⟨rfl, [("url", "http://x/y.png")], "http://x/y.png", rfl, by decide, by decide⟩
      · cases h4
  refine ⟨h, ?_⟩
  rw [claim_C6 ids0 .user segsTameW 0 [] h]
  decide

/-! ## Runner lemmas -/

theorem call_gemini_ok (world : World) (c : GeminiClient) (prompt model : String)
    (d : Rat) (out err : String)
    (hproc : world [c.cmd, "-m", model, "-p", prompt] = ⟨some d, 0, out, err⟩)
    (hd : d ≤ c.timeout) :
    call_gemini world c prompt model = .ok (pyStrip out) := by
  unfold call_gemini
  rw [hproc]
  simp [not_lt.mpr hd]

theorem call_gemini_err (world : World) (c : GeminiClient) (prompt model : String)
    (d : Rat) (rc : Int) (out err : String)
    (hproc : world [c.cmd, "-m", model, "-p", prompt] = ⟨some d, rc, out, err⟩)
    (hd : d ≤ c.timeout) (hrc : rc ≠ 0) :
    call_gemini world c prompt model =
      .error (.runtimeError ("Gemini CLI failed (" ++ toString rc ++ "): " ++ pyStrip err)) := by
  unfold call_gemini
  rw [hproc]
  simp [not_lt.mpr hd, hrc]

theorem call_gemini_late (world : World) (c : GeminiClient) (prompt model : String)
    (htime : (world [c.cmd, "-m", model, "-p", prompt]).time = none ∨
      ∃ d, (world [c.cmd, "-m", model, "-p", prompt]).time = some d ∧ c.timeout < d) :
    call_gemini world c prompt model = .error .timeoutError := by
  unfold call_gemini
  rcases htime with hnone | ⟨d, hsome, hlt⟩
  · simp [hnone]
  · simp [hsome, hlt]

/-- Claim C3: when the spawned process completes within the timeout with
exit code zero, `generate` returns its captured standard output stripped of
leading and trailing whitespace, raising no error. -/
theorem claim_C3 (world : World) (ids : IdSupply) (c : GeminiClient)
    (messages : List ChatMessage) (model : String) (k k2 : Nat) (fs fs2 : FS)
    (prompt : String) (tmps : List String) (d : Rat) (out err : String)
    (hbuild : build_prompt ids messages k fs = (.ok (prompt, tmps), k2, fs2))
    (hproc : world [c.cmd, "-m", model, "-p", prompt] = ⟨some d, 0, out, err⟩)
    (hd : d ≤ c.timeout) :
    generate world ids c messages model k fs = (.ok (pyStrip out), k2, cleanup fs2 tmps) := by
  unfold generate
  rw [hbuild]
  show (call_gemini world c prompt model, k2, cleanup fs2 tmps) = _
  rw [call_gemini_ok world c prompt model d out err hproc hd]

/-- A world whose process succeeds instantly with padded output. -/
def worldOk : World := fun _ => ⟨some 1, 0, " result\n", ""⟩

/-- Witness for C3: exit code 0 with stdout `" result\n"` yields `"result"`. -/
theorem claim_C3_witness :
    build_prompt ids0 [⟨.user, .str "q"⟩] 0 [] = (.ok ("user: q", []), 0, []) ∧
    (1 : Rat) ≤ ({} : GeminiClient).timeout ∧
    generate worldOk ids0 {} [⟨.user, .str "q"⟩] "m" 0 [] = (.ok "result", 0, []) := by
  have h := claim_C3 worldOk ids0 {} [⟨.user, .str "q"⟩] "m" 0 0 [] [] "user: q" [] 1
    " result\n" "" (by decide) rfl (by norm_num)
  exact ⟨by decide, by norm_num, h.trans (by decide)⟩

/-- Claim C4: when the spawned process completes within the timeout with a
non-zero exit code, `generate` raises an execution error whose message
contains both the exit code and the stripped captured standard error. -/
theorem claim_C4 (world : World) (ids : IdSupply) (c : GeminiClient)
    (messages : List ChatMessage) (model : String) (k k2 : Nat) (fs fs2 : FS)
    (prompt : String) (tmps : List String) (d : Rat) (rc : Int) (out err : String)
    (hbuild : build_prompt ids messages k fs = (.ok (prompt, tmps), k2, fs2))
    (hproc : world [c.cmd, "-m", model, "-p", prompt] = ⟨some d, rc, out, err⟩)
    (hd : d ≤ c.timeout) (hrc : rc ≠ 0) :
    generate world ids c messages model k fs =
      (.error (.runtimeError ("Gemini CLI failed (" ++ toString rc ++ "): " ++ pyStrip err)),
        k2, cleanup fs2 tmps) ∧
    containsSub ("Gemini CLI failed (" ++ toString rc ++ "): " ++ pyStrip err)
      (toString rc) = true ∧
    containsSub ("Gemini CLI failed (" ++ toString rc ++ "): " ++ pyStrip err)
      (pyStrip err) = true := by
  refine ⟨?_, ?_, ?_⟩
  · unfold generate
    rw [hbuild]
    show (call_gemini world c prompt model, k2, cleanup fs2 tmps) = _
    rw [call_gemini_err world c prompt model d rc out err hproc hd hrc]
  · have h := containsSub_append "Gemini CLI failed (" (toString rc) ("): " ++ pyStrip err)
    rw [String.append_assoc ("Gemini CLI failed (" ++ toString rc) "): " (pyStrip err)]
    exact h
  · have h := containsSub_append ("Gemini CLI failed (" ++ toString rc ++ "): ") (pyStrip err) ""
    rw [String.append_empty] at h
    exact h

/-- A world whose process fails instantly with exit code 2 and stderr
`" boom\n"`. -/
def worldBoom : World := fun _ => ⟨some 1, 2, "", " boom\n"⟩

/-- Witness for C4: exit code 2 and stderr `"boom"` produce an error message
containing `"2"` and `"boom"`. -/
theorem claim_C4_witness :
    (2 : Int) ≠ 0 ∧
    generate worldBoom ids0 {} [⟨.user, .str "q"⟩] "m" 0 [] =
      (.error (.runtimeError "Gemini CLI failed (2): boom"), 0, []) ∧
    containsSub "Gemini CLI failed (2): boom" "2" = true ∧
    containsSub "Gemini CLI failed (2): boom" "boom" = true := by
  have h := claim_C4 worldBoom ids0 {} [⟨.user, .str "q"⟩] "m" 0 0 [] [] "user: q" [] 1 2
    "" " boom\n" (by decide) rfl (by norm_num) (by decide)
  exact ⟨by decide, h.1.trans (by decide), by decide, by decide⟩

/-- Claim C7: when the spawned process does not complete within the
configured timeout (default 60 time units), `generate` fails with a timeout
error rather than returning a result, and the temp files created for the
call are still removed. -/
theorem claim_C7 (world : World) (ids : IdSupply) (c : GeminiClient)
    (messages : List ChatMessage) (model : String) (k k2 : Nat) (fs fs2 : FS)
    (prompt : String) (tmps : List String)
    (hbuild : build_prompt ids messages k fs = (.ok (prompt, tmps), k2, fs2))
    (htime : (world [c.cmd, "-m", model, "-p", prompt]).time = none ∨
      ∃ d, (world [c.cmd, "-m", model, "-p", prompt]).time = some d ∧ c.timeout < d) :
    generate world ids c messages model k fs = (.error .timeoutError, k2, cleanup fs2 tmps) ∧
    (∀ f ∈ tmps, fsExists (cleanup fs2 tmps) f = false) ∧
    ({} : GeminiClient).timeout = 60 := by
  refine ⟨?_, fun f hf => cleanup_removes tmps fs2 f hf, rfl⟩
  unfold generate
  rw [hbuild]
  show (call_gemini world c prompt model, k2, cleanup fs2 tmps) = _
  rw [call_gemini_late world c prompt model htime]

/-- A world whose process takes 100 time units, past the default timeout. -/
def worldSlow : World := fun _ => ⟨some 100, 0, "", ""⟩

/-- Witness for C7: a 100-unit process against the default 60-unit timeout,
with one temp file created and removed. -/
theorem claim_C7_witness :
    build_prompt ids0 msgsOneImage 0 [] =
      (.ok ("user:  @.gemini_tmp/01234567.png", [".gemini_tmp/01234567.png"]), 1,
        [(".gemini_tmp/01234567.png", [0, 0, 0])]) ∧
    ({} : GeminiClient).timeout < 100 ∧
    generate worldSlow ids0 {} msgsOneImage "m" 0 [] = (.error .timeoutError, 1, []) ∧
    fsExists (generate worldSlow ids0 {} msgsOneImage "m" 0 []).2.2
      ".gemini_tmp/01234567.png" = false := by
  have h := claim_C7 worldSlow ids0 {} msgsOneImage "m" 0 1 []
    [(".gemini_tmp/01234567.png", [0, 0, 0])] "user:  @.gemini_tmp/01234567.png"
    [".gemini_tmp/01234567.png"] (by decide)
    (Or.inr ⟨100, rfl, by show (60 : Rat) < 100; norm_num⟩)
  refine ⟨by decide, by show (60 : Rat) < 100; norm_num, h.1.trans (by decide), ?_⟩
  rw [h.1]
  decide

/-- A message list whose second image part has a malformed data URI, making
`_build_prompt` raise after it has already written one temp file. -/
def msgsLeak : List ChatMessage :=
  [⟨.user, .parts [⟨.image_url, none, some [("url", "data:image/png;base64,AAAA")]⟩,
                   ⟨.image_url, none, some [("url", "data:nocomma")]⟩]⟩]

/-- Counterexample to C2 as stated: when `_build_prompt` itself raises
partway (malformed second data URI), `generate` propagates the error but
the temp file written for the first image is never deleted — the `finally`
block only wraps the external call, which is never reached. -/
theorem claim_C2_cex :
    (generate worldNull ids0 {} msgsLeak "m" 0 []).1 = .error .valueError ∧
    fsExists (generate worldNull ids0 {} msgsLeak "m" 0 []).2.2
      ".gemini_tmp/01234567.png" = true := by
  decide

/-- Claim C2 (amended): for every call in which `_build_prompt` completes
without raising, every temp-file path it returned is deleted before
`generate` finishes — whatever the external call does — and cleanup skips
already-absent paths without error; when `_build_prompt` itself raises,
files created before the raise are not cleaned up. -/
theorem claim_C2 (world : World) (ids : IdSupply) (c : GeminiClient)
    (messages : List ChatMessage) (model : String) (k k2 : Nat) (fs fs2 : FS)
    (prompt : String) (tmps : List String)
    (hbuild : build_prompt ids messages k fs = (.ok (prompt, tmps), k2, fs2)) :
    generate world ids c messages model k fs =
      (call_gemini world c prompt model, k2, cleanup fs2 tmps) ∧
    ∀ f ∈ tmps, fsExists (generate world ids c messages model k fs).2.2 f = false := by
  have h1 : generate world ids c messages model k fs =
      (call_gemini world c prompt model, k2, cleanup fs2 tmps) := by
    unfold generate
    rw [hbuild]
  refine ⟨h1, ?_⟩
  rw [h1]
  exact fun f hf => cleanup_removes tmps fs2 f hf

/-- Witness for C2 (amended) at a call that creates one temp file. -/
theorem claim_C2_witness :
    build_prompt ids0 msgsOneImage 0 [] =
      (.ok ("user:  @.gemini_tmp/01234567.png", [".gemini_tmp/01234567.png"]), 1,
        [(".gemini_tmp/01234567.png", [0, 0, 0])]) ∧
    fsExists (generate worldNull ids0 {} msgsOneImage "m" 0 []).2.2
      ".gemini_tmp/01234567.png" = false := by
  have h := claim_C2 worldNull ids0 {} msgsOneImage "m" 0 1 []
    [(".gemini_tmp/01234567.png", [0, 0, 0])] "user:  @.gemini_tmp/01234567.png"
    [".gemini_tmp/01234567.png"] (by decide)
  exact ⟨by decide, h.2 _ (by decide)⟩

/-- Claim C8: an `image_url` part whose url starts with `data:` but has no
comma makes prompt building fail with an error that propagates out of
`generate`; there is no recovery or fallback. -/
theorem claim_C8 (world : World) (ids : IdSupply) (c : GeminiClient) (r : Role)
    (model url : String) (k : Nat) (fs : FS)
    (hdata : pyStartsWith url "data:" = true)
    (hsplit : splitOnce ',' url = none) :
    generate world ids c [⟨r, .parts [⟨.image_url, none, some [("url", url)]⟩]⟩]
      model k fs = (.error .valueError, k, fs) := by
  have hsave : save_b64 ids k fs url = (.error .valueError, k, fs) := by
    unfold save_b64
    rw [hsplit]
  have hbuild : build_prompt ids [⟨r, .parts [⟨.image_url, none, some [("url", url)]⟩]⟩]
      k fs = (.error .valueError, k, fs) := by
    have hlk : List.lookup "url" [("url", url)] = some url := rfl
    unfold build_prompt buildMsgs buildSegs
    simp only [hlk, hdata, eq_self_iff_true, if_true, hsave]
  unfold generate
  rw [hbuild]

/-- Witness for C8 at the url `"data:nocomma"`. -/
theorem claim_C8_witness :
    pyStartsWith "data:nocomma" "data:" = true ∧
    splitOnce ',' "data:nocomma" = none ∧
    generate worldNull ids0 {}
      [⟨.user, .parts [⟨.image_url, none, some [("url", "data:nocomma")]⟩]⟩] "m" 0 [] =
      (.error .valueError, 0, []) :=
  ⟨by decide, by decide,
    claim_C8 worldNull ids0 {} .user "m" "data:nocomma" 0 [] (by decide) (by decide)⟩

end MyGemini
